import Mathlib

/-!
Verification of the MiniVideo thumbnail-extraction core against its
natural-language specification.

The definitions below are shallow embeddings of the C sources:

* src/minivideo/src/bitstream_map.c     : init_bitstream_map, free_bitstream_map
* src/minivideo/src/demuxer/filter.c    : idr_filtering
* src/minivideo/src/decoder/h264/h264.c : the h264_decode dispatch loop,
  checkDecodingContext, computeNormAdjust
* src/minivideo/src/utils.c             : is_prime

Modelling conventions:

* C machine integers are modelled as Nat (unsigned counters, sizes) and
  Int (signed retcodes, picture counts, timestamps).
* Pointers that may be NULL are modelled as Option; the caller's
  BitstreamMap_t handle (the cell *bitstream_map_pointer) is threaded
  explicitly through init_bitstream_map / idr_filtering.
* C undefined behaviour reachable in the embedded code paths (integer
  division by zero in the frame_jump computation; the (int) cast of a NaN
  threshold when sample_count_idr is zero) makes the embedded function
  return none.
* The floating-point threshold (int)(((double)payload / count) / 1.66) and
  border count (int)ceil(count * 0.03) are evaluated in exact rational
  arithmetic: floor(50 * payload / (83 * count)) and
  ceil(3 * count / 100).  For the integer ranges reachable here the IEEE
  double evaluation agrees with the exact one.
* The 999-slot intermediate array temporary_sample_id is modelled as an
  unbounded list (the specification states the implementation may grow it
  dynamically); reads past the number of written entries yield 0, exactly
  as the zero-initialised C array does.
-/

namespace MiniVideo

/-- Return code used across the sources: 1 on success. -/
def SUCCESS : Int := 1

/-- Return code used across the sources: 0 on failure. -/
def FAILURE : Int := 0

/-- Picture extraction mode: keep the map untouched. -/
def PICTURE_UNFILTERED : Int := 0

/-- Picture extraction mode: take the first survivors in decode order. -/
def PICTURE_ORDERED : Int := 1

/-- Picture extraction mode: spread the picks over the survivors. -/
def PICTURE_DISTRIBUTED : Int := 2

/-- Shallow embedding of BitstreamMap_t: the aggregate counters and the
five per-sample arrays allocated by init_bitstream_map. -/
structure BitstreamMap where
  stream_type : Nat
  sample_count : Nat
  sample_count_idr : Nat
  sample_type : List Nat
  sample_size : List Nat
  sample_offset : List Int
  sample_pts : List Int
  sample_dts : List Int
deriving DecidableEq

/-- A map fresh out of init_bitstream_map: calloc zero-initialises the
structure and each of the five per-sample arrays. -/
def zeroedMap (entries : Nat) : BitstreamMap :=
  { stream_type := 0
    sample_count := 0
    sample_count_idr := 0
    sample_type := List.replicate entries 0
    sample_size := List.replicate entries 0
    sample_offset := List.replicate entries 0
    sample_pts := List.replicate entries 0
    sample_dts := List.replicate entries 0 }

/-- Embedding of init_bitstream_map (bitstream_map.c, lines 43-105).
The oracle alloc gives the outcome of the six calloc calls (index 0 is
the BitstreamMap_t structure itself, indices 1-5 the five arrays); cell
is the caller's *bitstream_map handle.  Returns (retcode, new cell). -/
def init_bitstream_map (alloc : Nat → Bool) (cell : Option BitstreamMap)
    (entries : Nat) : Int × Option BitstreamMap :=
  if cell ≠ none then (FAILURE, cell)
  else if entries = 0 then (FAILURE, cell)
  else if alloc 0 = false then (FAILURE, none)
  else if (alloc 1 && alloc 2 && alloc 3 && alloc 4 && alloc 5) = false then (FAILURE, none)
  else (SUCCESS, some (zeroedMap entries))

/-- Allocation oracle under which every calloc succeeds. -/
def allocAll : Nat → Bool := fun _ => true

/-- Embedding of free_bitstream_map (bitstream_map.c, lines 113-149):
frees the map when present and always leaves the caller's cell NULL. -/
def free_bitstream_map (cell : Option BitstreamMap) : Option BitstreamMap :=
  none

/-- C10: init_bitstream_map returns FAILURE and leaves the caller's cell
untouched when the cell is already occupied or when entries is zero; when
the cell was empty and entries nonzero, a FAILURE outcome (an allocation
failure) leaves the cell NULL; on success it returns SUCCESS and the cell
holds a fully zero-initialised map (all counters zero, each of the five
per-sample arrays made of entries zeroed slots). -/
theorem c10_init_map (alloc : Nat → Bool) (cell : Option BitstreamMap) (entries : Nat) :
    (cell ≠ none → init_bitstream_map alloc cell entries = (FAILURE, cell)) ∧
    (entries = 0 → init_bitstream_map alloc cell entries = (FAILURE, cell)) ∧
    (cell = none → entries ≠ 0 → (init_bitstream_map alloc cell entries).1 = FAILURE →
      (init_bitstream_map alloc cell entries).2 = none) ∧
    ((init_bitstream_map alloc cell entries).1 ≠ FAILURE →
      (init_bitstream_map alloc cell entries).1 = SUCCESS ∧
      (init_bitstream_map alloc cell entries).2 = some (zeroedMap entries) ∧
      (zeroedMap entries).stream_type = 0 ∧
      (zeroedMap entries).sample_count = 0 ∧
      (zeroedMap entries).sample_count_idr = 0 ∧
      (zeroedMap entries).sample_type = List.replicate entries 0 ∧
      (zeroedMap entries).sample_size = List.replicate entries 0 ∧
      (zeroedMap entries).sample_offset = List.replicate entries 0 ∧
      (zeroedMap entries).sample_pts = List.replicate entries 0 ∧
      (zeroedMap entries).sample_dts = List.replicate entries 0) := by
  refine ⟨?_, ?_, ?_, ?_⟩
  · intro h
    simp [init_bitstream_map, h]
  · intro h
    by_cases hc : cell = none
    · subst hc
      simp [init_bitstream_map, h]
    · simp [init_bitstream_map, hc]
  · intro hc he hf
    subst hc
    by_cases a0 : alloc 0 = false
    · simp [init_bitstream_map, he, a0]
    · by_cases a15 : (alloc 1 && alloc 2 && alloc 3 && alloc 4 && alloc 5) = false
      · simp [init_bitstream_map, he, a0, a15]
      · exfalso
        simp [init_bitstream_map, he, a0, a15, SUCCESS, FAILURE] at hf
  · intro hs
    by_cases hc : cell = none
    · subst hc
      by_cases he : entries = 0
      · exfalso
        simp [init_bitstream_map, he] at hs
      · by_cases a0 : alloc 0 = false
        · exfalso
          simp [init_bitstream_map, he, a0] at hs
        · by_cases a15 : (alloc 1 && alloc 2 && alloc 3 && alloc 4 && alloc 5) = false
          · exfalso
            simp [init_bitstream_map, he, a0, a15] at hs
          · refine ⟨?_, ?_, rfl, rfl, rfl, rfl, rfl, rfl, rfl, rfl⟩
            · simp [init_bitstream_map, he, a0, a15]
            · simp [init_bitstream_map, he, a0, a15]
    · exfalso
      simp [init_bitstream_map, hc] at hs

/-- Concrete instance of c10_init_map: a successful three-entry
initialisation through the all-succeeding allocation oracle. -/
theorem c10_init_map_witness :
    (init_bitstream_map allocAll none 3).1 = SUCCESS ∧
    (init_bitstream_map allocAll none 3).2 = some (zeroedMap 3) ∧
    (zeroedMap 3).stream_type = 0 ∧
    (zeroedMap 3).sample_count = 0 ∧
    (zeroedMap 3).sample_count_idr = 0 ∧
    (zeroedMap 3).sample_type = List.replicate 3 0 ∧
    (zeroedMap 3).sample_size = List.replicate 3 0 ∧
    (zeroedMap 3).sample_offset = List.replicate 3 0 ∧
    (zeroedMap 3).sample_pts = List.replicate 3 0 ∧
    (zeroedMap 3).sample_dts = List.replicate 3 0 :=
  (c10_init_map allocAll none 3).2.2.2 (by decide)

/-- Number of leading non-IDR pseudo-samples (SPS/PPS): the local spspps
variable of idr_filtering (filter.c, line 95). -/
def spsppsOf (m : BitstreamMap) : Nat :=
  m.sample_count - m.sample_count_idr

/-- Sum of the sizes of all IDR samples: the payload accumulation loop of
idr_filtering (filter.c, lines 99-102). -/
def payloadOf (m : BitstreamMap) : Nat :=
  ((List.range' (spsppsOf m) (m.sample_count - spsppsOf m)).map
    (fun i => m.sample_size.getD i 0)).sum

/-- The frame_sizethreshold of idr_filtering (filter.c, line 105):
(int)(((double)payload / (double)sample_count_idr) / 1.66), evaluated in
exact arithmetic as floor((payload / count) / (166/100)). -/
def frameSizeThreshold (m : BitstreamMap) : Nat :=
  50 * payloadOf m / (83 * m.sample_count_idr)

/-- The frame_borders of idr_filtering (filter.c, line 109):
(int)ceil(sample_count_idr * 0.03), evaluated exactly as
ceil(3 * count / 100). -/
def frameBorders (m : BitstreamMap) : Nat :=
  (3 * m.sample_count_idr + 99) / 100

/-- The first cut of idr_filtering (filter.c, lines 112-121): walk IDR
indices i from frame_borders to sample_count_idr - frame_borders
(exclusive) and record the sample index i + spspps of every IDR whose
size strictly exceeds the threshold.  This is the content of the
temporary_sample_id array, in write order. -/
def survivorsOf (m : BitstreamMap) : List Nat :=
  ((List.range' (frameBorders m)
      (m.sample_count_idr - frameBorders m - frameBorders m)).filter
    (fun i => decide (frameSizeThreshold m < m.sample_size.getD (i + spsppsOf m) 0))).map
    (fun i => i + spsppsOf m)

/-- The temporary_totalsamples_idr counter after the first cut. -/
def survCount (m : BitstreamMap) : Nat :=
  (survivorsOf m).length

/-- The picture_number after the first clamp (filter.c, lines 76-85):
0 when the map holds no IDR, else at most sample_count_idr. -/
def clampedPn (m : BitstreamMap) (pn : Int) : Int :=
  if m.sample_count_idr = 0 then 0
  else if (m.sample_count_idr : Int) < pn then (m.sample_count_idr : Int) else pn

/-- The picture_number after the second clamp (filter.c, lines 124-125):
at most the number of first-cut survivors. -/
def clampedPn2 (m : BitstreamMap) (pn : Int) : Int :=
  if (survCount m : Int) < clampedPn m pn then (survCount m : Int) else clampedPn m pn

/-- The frame_jump of idr_filtering (filter.c, line 128):
(int)ceil(temporary_totalsamples_idr / (picture_number - 1)).  Both
operands are int, so the division truncates toward zero (Int.tdiv) and
the ceil of the already integral quotient is the quotient itself. -/
def frameJump (m : BitstreamMap) (pn : Int) : Int :=
  Int.tdiv (survCount m : Int) (clampedPn2 m pn - 1)

/-- Source sample index copied into appended IDR slot i by the second cut
(filter.c, lines 154-172): temporary_sample_id[i] in ORDERED mode,
temporary_sample_id[i * frame_jump] in DISTRIBUTED mode; reading the
array past the written entries yields 0 (the array is zero-initialised).
An unrecognised mode writes nothing (none). -/
def selSample (m : BitstreamMap) (pn mode : Int) (i : Nat) : Option Nat :=
  if mode = PICTURE_ORDERED then some ((survivorsOf m).getD i 0)
  else if mode = PICTURE_DISTRIBUTED then
    some ((survivorsOf m).getD ((i : Int) * frameJump m pn).toNat 0)
  else none

/-- Value of slot k of a per-sample array of the filtered map: the copy
loop (filter.c, lines 144-151) fills slots below spspps from the original
map, the second cut (lines 154-172) fills the next picture_number slots
from the selected samples, and the remaining slots keep the calloc zero.
Each slot is written at most once, so this pointwise description is exact. -/
def writeSlot {α : Type} (sp pnW : Nat) (orig : Nat → α) (sel : Nat → Option Nat)
    (src : Nat → α) (z : α) (k : Nat) : α :=
  if k < sp then orig k
  else if k < sp + pnW then (sel (k - sp)).elim z src
  else z

/-- The map_filtered built by idr_filtering (filter.c, lines 134-172):
sample_count and sample_count_idr are set from spspps and the first-cut
survivor count; sample_type, sample_pts, sample_offset and sample_size
are filled by the two copy loops; sample_dts is never written and keeps
its calloc zeros; stream_type is never copied either. -/
def builtMap (m : BitstreamMap) (pn mode : Int) : BitstreamMap :=
  { stream_type := 0
    sample_count := spsppsOf m + survCount m
    sample_count_idr := survCount m
    sample_type := (List.range (spsppsOf m + survCount m)).map
      (writeSlot (spsppsOf m) (clampedPn2 m pn).toNat (fun k => m.sample_type.getD k 0)
        (selSample m pn mode) (fun s => m.sample_type.getD s 0) 0)
    sample_size := (List.range (spsppsOf m + survCount m)).map
      (writeSlot (spsppsOf m) (clampedPn2 m pn).toNat (fun k => m.sample_size.getD k 0)
        (selSample m pn mode) (fun s => m.sample_size.getD s 0) 0)
    sample_offset := (List.range (spsppsOf m + survCount m)).map
      (writeSlot (spsppsOf m) (clampedPn2 m pn).toNat (fun k => m.sample_offset.getD k 0)
        (selSample m pn mode) (fun s => m.sample_offset.getD s 0) 0)
    sample_pts := (List.range (spsppsOf m + survCount m)).map
      (writeSlot (spsppsOf m) (clampedPn2 m pn).toNat (fun k => m.sample_pts.getD k 0)
        (selSample m pn mode) (fun s => m.sample_pts.getD s 0) 0)
    sample_dts := List.replicate (spsppsOf m + survCount m) 0 }

/-- Outcome of a call to idr_filtering: the returned int, the caller's
*bitstream_map_pointer cell after the call, and the map_filtered that was
built (the code leaks it through a local pointer variable, so it is
reported separately from the caller's cell). -/
structure FilterResult where
  retcode : Int
  caller : Option BitstreamMap
  built : Option BitstreamMap
deriving DecidableEq

/-- Embedding of idr_filtering (filter.c, lines 51-189).  Returns none
when the call runs into C undefined behaviour: the (int) cast of the NaN
threshold when sample_count_idr is 0 with a filtering mode, or the
integer division by zero in frame_jump when the clamped picture_number
is 1.  Note the source flow on the success path: free_bitstream_map
nulls the caller's cell, after which only the local pointer variable is
redirected to map_filtered, so the caller's cell stays NULL. -/
def idr_filtering (alloc : Nat → Bool) (cell : Option BitstreamMap)
    (pn mode : Int) : Option FilterResult :=
  match cell with
  | none => some { retcode := FAILURE, caller := none, built := none }
  | some m =>
    if mode = PICTURE_UNFILTERED then
      some { retcode := clampedPn m pn, caller := some m, built := none }
    else if m.sample_count_idr = 0 then
      none
    else if clampedPn2 m pn - 1 = 0 then
      none
    else if (init_bitstream_map alloc none (spsppsOf m + survCount m)).1 ≠ FAILURE then
      some { retcode := clampedPn2 m pn, caller := free_bitstream_map (some m),
             built := some (builtMap m pn mode) }
    else
      some { retcode := FAILURE, caller := some m, built := none }

/-- A small valid video map: one SPS pseudo-sample followed by four IDR
samples of size 100.  Borders cut IDR indices 0 and 3; both remaining
IDRs beat the threshold 60, so the survivors are samples 2 and 3. -/
def exMap : BitstreamMap :=
  { stream_type := 1
    sample_count := 5
    sample_count_idr := 4
    sample_type := [7, 5, 5, 5, 5]
    sample_size := [10, 100, 100, 100, 100]
    sample_offset := [1000, 2000, 3000, 4000, 5000]
    sample_pts := [0, 40, 80, 120, 160]
    sample_dts := [0, 40, 80, 120, 160] }

/-- A valid video map with exactly one first-cut survivor, so any request
clamps the picture count to 1 and reaches the zero divisor. -/
def exMapDiv : BitstreamMap :=
  { stream_type := 1
    sample_count := 4
    sample_count_idr := 3
    sample_type := [7, 5, 5, 5]
    sample_size := [10, 100, 100, 100]
    sample_offset := [1000, 2000, 3000, 4000]
    sample_pts := [0, 40, 80, 120]
    sample_dts := [0, 40, 80, 120] }

/-- The exMap layout with a nonzero decode timestamp on the SPS entry,
exposing that idr_filtering never copies sample_dts. -/
def exMapDts : BitstreamMap :=
  { stream_type := 1
    sample_count := 5
    sample_count_idr := 4
    sample_type := [7, 5, 5, 5, 5]
    sample_size := [10, 100, 100, 100, 100]
    sample_offset := [1000, 2000, 3000, 4000, 5000]
    sample_pts := [0, 40, 80, 120, 160]
    sample_dts := [77, 40, 80, 120, 160] }

/-- A valid video map with two parameter-set pseudo-samples and six IDR
samples, giving four survivors; requesting three pictures in DISTRIBUTED
mode makes picture_number - 1 = 2 divide the survivor count 4. -/
def c4map : BitstreamMap :=
  { stream_type := 1
    sample_count := 8
    sample_count_idr := 6
    sample_type := [7, 8, 5, 5, 5, 5, 5, 5]
    sample_size := [10, 12, 100, 100, 100, 100, 100, 100]
    sample_offset := [100, 200, 300, 400, 500, 600, 700, 800]
    sample_pts := [0, 0, 40, 80, 120, 160, 200, 240]
    sample_dts := [0, 0, 40, 80, 120, 160, 200, 240] }

/-- C1: on a successful filtering call the old map is indeed released,
but the caller's *bitstream_map_pointer is NULL afterwards, not a handle
to the filtered map: free_bitstream_map nulls the caller's cell and the
function then redirects only its local pointer parameter (filter.c,
lines 179-180), so the filtered map leaks.  Evaluated on exMap with
picture_number 2 in ORDERED mode: the call returns 2 (positive) and the
caller's cell is none while the filtered map was built. -/
theorem c1_pointer_not_updated :
    (idr_filtering allocAll (some exMap) 2 PICTURE_ORDERED).map
        (fun r => (r.retcode, r.caller)) = some (2, none) ∧
    ((idr_filtering allocAll (some exMap) 2 PICTURE_ORDERED).bind
        FilterResult.built).isSome = true := by
  exact ⟨rfl, rfl⟩

/-- C2 counterexample: on exMapDiv (three IDRs, single survivor) with
picture_number 5 in ORDERED mode and all allocations succeeding, the
claim predicts the return value min(5, 1) = 1; the code instead divides
by zero computing frame_jump (picture_number was clamped to 1), so no
defined value is returned at all. -/
theorem c2_div_by_zero_cex :
    idr_filtering allocAll (some exMapDiv) 5 PICTURE_ORDERED = none ∧
    survCount exMapDiv = 1 ∧
    (idr_filtering allocAll (some exMapDiv) 5 PICTURE_ORDERED).map FilterResult.retcode ≠
      some (min 5 (survCount exMapDiv : Int)) := by
  refine ⟨rfl, rfl, by decide⟩

/-- C4: DISTRIBUTED selection has no edge-clamping.  On c4map with
picture_number 3 the survivors are samples [3, 4, 5, 6] (so the survivor
count 4 is divisible by picture_number - 1 = 2, frame_jump = 2); the last
pick reads temporary_sample_id[2 * 2 = 4], one past the 4 written
entries, whose zero-initialised slot selects map sample 0 - the SPS
pseudo-sample (type 7, offset 100) - instead of a survivor. -/
theorem c4_distributed_overrun :
    survivorsOf c4map = [3, 4, 5, 6] ∧
    clampedPn2 c4map 3 = 3 ∧
    frameJump c4map 3 = 2 ∧
    ((idr_filtering allocAll (some c4map) 3 PICTURE_DISTRIBUTED).bind
        FilterResult.built).map
        (fun mf => (mf.sample_type.getD 4 0, mf.sample_offset.getD 4 0)) =
      some (c4map.sample_type.getD 0 0, c4map.sample_offset.getD 0 0) ∧
    c4map.sample_type.getD 0 0 ≠ 5 := by
  refine ⟨rfl, rfl, rfl, rfl, by decide⟩

/-- C8 counterexample: the copy loop transfers sample_type, sample_pts,
sample_offset and sample_size but never sample_dts (filter.c, lines
144-151), so on exMapDts the SPS entry of the filtered map carries
dts 0 where the original carries dts 77 - the entry is not copied
verbatim in every per-sample field. -/
theorem c8_dts_not_copied_cex :
    ((idr_filtering allocAll (some exMapDts) 2 PICTURE_ORDERED).bind
        FilterResult.built).map (fun mf => mf.sample_dts.getD 0 0) = some 0 ∧
    exMapDts.sample_dts.getD 0 0 = 77 ∧
    ((idr_filtering allocAll (some exMapDts) 2 PICTURE_ORDERED).bind
        FilterResult.built).map (fun mf => mf.sample_dts.getD 0 0) ≠
      some (exMapDts.sample_dts.getD 0 0) := by
  refine ⟨rfl, rfl, by decide⟩

/-- A well-formed video map whose IDR samples carry the sample type idrT
and occupy the last sample_count_idr positions, the leading positions
holding non-IDR (SPS/PPS) entries; the five per-sample arrays have
sample_count slots and the IDR type code is nonzero (a zeroed slot is
not an IDR entry). -/
def ValidMap (m : BitstreamMap) (idrT : Nat) : Prop :=
  m.sample_count_idr ≤ m.sample_count ∧
  m.sample_type.length = m.sample_count ∧
  m.sample_size.length = m.sample_count ∧
  m.sample_offset.length = m.sample_count ∧
  m.sample_pts.length = m.sample_count ∧
  m.sample_dts.length = m.sample_count ∧
  idrT ≠ 0 ∧
  (∀ i, i < spsppsOf m → m.sample_type.getD i 0 ≠ idrT) ∧
  (∀ i, i < m.sample_count → spsppsOf m ≤ i → m.sample_type.getD i 0 = idrT)

theorem survCount_le (m : BitstreamMap) : survCount m ≤ m.sample_count_idr := by
  unfold survCount survivorsOf
  rw [List.length_map]
  refine le_trans (List.length_filter_le _ _) ?_
  rw [List.length_range']
  omega

theorem mem_survivorsOf {m : BitstreamMap} {s : Nat} (h : s ∈ survivorsOf m) :
    spsppsOf m ≤ s ∧ s < spsppsOf m + m.sample_count_idr ∧
      frameSizeThreshold m < m.sample_size.getD s 0 := by
  unfold survivorsOf at h
  rcases List.mem_map.mp h with ⟨j, hj, rfl⟩
  rcases List.mem_filter.mp hj with ⟨hr, hp⟩
  rcases List.mem_range'.mp hr with ⟨t, ht, rfl⟩
  exact ⟨by omega, by omega, of_decide_eq_true hp⟩

theorem survivor_type {m : BitstreamMap} {idrT : Nat} (hv : ValidMap m idrT) {s : Nat}
    (h : s ∈ survivorsOf m) : m.sample_type.getD s 0 = idrT := by
  obtain ⟨hsp, hlt, _⟩ := mem_survivorsOf h
  have hcle : m.sample_count_idr ≤ m.sample_count := hv.1
  refine hv.2.2.2.2.2.2.2.2 s ?_ hsp
  unfold spsppsOf at hlt
  omega

theorem getD_mem_of_lt {α : Type} (l : List α) (i : Nat) (d : α) (h : i < l.length) :
    l.getD i d ∈ l := by
  rw [List.getD_eq_getElem l d h]
  exact List.getElem_mem h

theorem getD_range_map {α : Type} (f : Nat → α) (e i : Nat) (d : α) (h : i < e) :
    ((List.range e).map f).getD i d = f i := by
  rw [List.getD_eq_getElem?_getD, List.getElem?_map, List.getElem?_range h]
  rfl

theorem getD_replicate_lt {α : Type} (n i : Nat) (a d : α) (h : i < n) :
    (List.replicate n a).getD i d = a := by
  rw [List.getD_eq_getElem?_getD, List.getElem?_replicate, if_pos h]
  rfl

theorem clampedPn2_eq_min (m : BitstreamMap) (pn : Int)
    (hc : 0 < m.sample_count_idr) :
    clampedPn2 m pn = min pn (survCount m : Int) := by
  have hA : survCount m ≤ m.sample_count_idr := survCount_le m
  unfold clampedPn2 clampedPn
  split_ifs <;> omega

/-- C3: with a filtering mode, an IDR with 0-based IDR index i (sample
index i + spspps) survives the first cut exactly when frame_borders ≤ i,
i < sample_count_idr - frame_borders, and its size strictly exceeds the
threshold; and the survivor list is recorded in decode order (strictly
increasing sample indices). -/
theorem c3_first_cut (m : BitstreamMap) (idrT : Nat) (i : Nat)
    (hv : ValidMap m idrT) (hc : 0 < m.sample_count_idr)
    (hi : i < m.sample_count_idr) :
    ((i + spsppsOf m ∈ survivorsOf m) ↔
      (frameBorders m ≤ i ∧ i < m.sample_count_idr - frameBorders m ∧
        frameSizeThreshold m < m.sample_size.getD (i + spsppsOf m) 0)) ∧
    List.Pairwise (fun a b => a < b) (survivorsOf m) := by
  constructor
  · constructor
    · intro h
      unfold survivorsOf at h
      rcases List.mem_map.mp h with ⟨j, hj, heq⟩
      have hji : j = i := by omega
      subst hji
      rcases List.mem_filter.mp hj with ⟨hr, hp⟩
      rcases List.mem_range'.mp hr with ⟨t, ht, hteq⟩
      exact ⟨by omega, by omega, of_decide_eq_true hp⟩
    · rintro ⟨h1, h2, h3⟩
      unfold survivorsOf
      refine List.mem_map.mpr ⟨i, List.mem_filter.mpr ⟨?_, decide_eq_true h3⟩, rfl⟩
      exact List.mem_range'.mpr ⟨i - frameBorders m, by omega, by omega⟩
  · unfold survivorsOf
    refine List.pairwise_map.mpr (List.Pairwise.filter _ ?_)
    refine List.Pairwise.imp ?_ (List.pairwise_lt_range' _ _)
    intro a b hab
    omega

/-- Concrete instance of c3_first_cut on exMap at IDR index 1. -/
theorem c3_first_cut_witness :
    ((1 + spsppsOf exMap ∈ survivorsOf exMap) ↔
      (frameBorders exMap ≤ 1 ∧ 1 < exMap.sample_count_idr - frameBorders exMap ∧
        frameSizeThreshold exMap < exMap.sample_size.getD (1 + spsppsOf exMap) 0)) ∧
    List.Pairwise (fun a b => a < b) (survivorsOf exMap) :=
  c3_first_cut exMap 5 1 (by unfold ValidMap; decide) (by decide) (by decide)

theorem init_allocAll_success (entries : Nat) (h : entries ≠ 0) :
    init_bitstream_map allocAll none entries = (SUCCESS, some (zeroedMap entries)) := by
  simp [init_bitstream_map, allocAll, h]

/-- Success path of idr_filtering: with a filtering mode, a nonempty IDR
set, a nonzero filtered entry count, a clamped picture count other than 1
and all allocations succeeding, the call frees the caller's map (leaving
the cell NULL) and builds the filtered map. -/
theorem idr_filtering_success (m : BitstreamMap) (pn mode : Int)
    (hmode : mode = PICTURE_ORDERED ∨ mode = PICTURE_DISTRIBUTED)
    (hc : m.sample_count_idr ≠ 0)
    (he : spsppsOf m + survCount m ≠ 0)
    (h1 : clampedPn2 m pn ≠ 1) :
    idr_filtering allocAll (some m) pn mode =
      some { retcode := clampedPn2 m pn, caller := none,
             built := some (builtMap m pn mode) } := by
  have hm0 : ¬ mode = PICTURE_UNFILTERED := by
    rcases hmode with h | h <;> subst h <;> decide
  have h2 : ¬ (clampedPn2 m pn - 1 = 0) := by omega
  simp only [idr_filtering, if_neg hm0, if_neg hc, if_neg h2,
    init_allocAll_success _ he]
  simp [FAILURE, SUCCESS, free_bitstream_map]

/-- C8 as amended: on a successful filtering call every auxiliary SPS/PPS
entry (index below spspps) of the filtered map matches the original in
sample_type, sample_offset, sample_size and sample_pts; sample_dts is not
copied and stays zero. -/
theorem c8_copy_amended (m : BitstreamMap) (idrT : Nat) (pn mode : Int) (i : Nat)
    (hv : ValidMap m idrT) (hc : 0 < m.sample_count_idr)
    (hmode : mode = PICTURE_ORDERED ∨ mode = PICTURE_DISTRIBUTED)
    (he : spsppsOf m + survCount m ≠ 0)
    (h1 : min pn (survCount m : Int) ≠ 1)
    (hi : i < spsppsOf m) :
    ((idr_filtering allocAll (some m) pn mode).bind FilterResult.built).map
        (fun mf => mf.sample_type.getD i 0) = some (m.sample_type.getD i 0) ∧
    ((idr_filtering allocAll (some m) pn mode).bind FilterResult.built).map
        (fun mf => mf.sample_offset.getD i 0) = some (m.sample_offset.getD i 0) ∧
    ((idr_filtering allocAll (some m) pn mode).bind FilterResult.built).map
        (fun mf => mf.sample_size.getD i 0) = some (m.sample_size.getD i 0) ∧
    ((idr_filtering allocAll (some m) pn mode).bind FilterResult.built).map
        (fun mf => mf.sample_pts.getD i 0) = some (m.sample_pts.getD i 0) ∧
    ((idr_filtering allocAll (some m) pn mode).bind FilterResult.built).map
        (fun mf => mf.sample_dts.getD i 0) = some 0 := by
  have hmin := clampedPn2_eq_min m pn hc
  rw [idr_filtering_success m pn mode hmode (by omega) he (by rw [hmin]; exact h1)]
  have hie : i < spsppsOf m + survCount m := by omega
  simp only [Option.some_bind, Option.map_some']
  unfold builtMap
  refine ⟨?_, ?_, ?_, ?_, ?_⟩
  · simp only []
    rw [getD_range_map _ _ _ _ hie]
    unfold writeSlot
    rw [if_pos hi]
  · simp only []
    rw [getD_range_map _ _ _ _ hie]
    unfold writeSlot
    rw [if_pos hi]
  · simp only []
    rw [getD_range_map _ _ _ _ hie]
    unfold writeSlot
    rw [if_pos hi]
  · simp only []
    rw [getD_range_map _ _ _ _ hie]
    unfold writeSlot
    rw [if_pos hi]
  · simp only []
    rw [getD_replicate_lt _ _ _ _ hie]

/-- Concrete instance of c8_copy_amended on exMapDts at auxiliary index 0. -/
theorem c8_copy_witness :
    ((idr_filtering allocAll (some exMapDts) 2 PICTURE_ORDERED).bind
        FilterResult.built).map (fun mf => mf.sample_type.getD 0 0) =
      some (exMapDts.sample_type.getD 0 0) ∧
    ((idr_filtering allocAll (some exMapDts) 2 PICTURE_ORDERED).bind
        FilterResult.built).map (fun mf => mf.sample_offset.getD 0 0) =
      some (exMapDts.sample_offset.getD 0 0) ∧
    ((idr_filtering allocAll (some exMapDts) 2 PICTURE_ORDERED).bind
        FilterResult.built).map (fun mf => mf.sample_size.getD 0 0) =
      some (exMapDts.sample_size.getD 0 0) ∧
    ((idr_filtering allocAll (some exMapDts) 2 PICTURE_ORDERED).bind
        FilterResult.built).map (fun mf => mf.sample_pts.getD 0 0) =
      some (exMapDts.sample_pts.getD 0 0) ∧
    ((idr_filtering allocAll (some exMapDts) 2 PICTURE_ORDERED).bind
        FilterResult.built).map (fun mf => mf.sample_dts.getD 0 0) = some 0 :=
  c8_copy_amended exMapDts 5 2 PICTURE_ORDERED 0 (by unfold ValidMap; decide)
    (by decide) (Or.inl rfl) (by decide) (by decide) (by decide)

theorem builtMap_sample_type (m : BitstreamMap) (pn mode : Int) :
    (builtMap m pn mode).sample_type =
      (List.range (spsppsOf m + survCount m)).map
        (writeSlot (spsppsOf m) (clampedPn2 m pn).toNat
          (fun k => m.sample_type.getD k 0) (selSample m pn mode)
          (fun s => m.sample_type.getD s 0) 0) := rfl

/-- Counting over a range split into a leading all-false zone, a middle
all-true zone and an all-false tail. -/
theorem countP_range_split (q : Nat → Bool) (a b c : Nat)
    (h1 : ∀ k, k < a → q k = false)
    (h2 : ∀ k, a ≤ k → k < a + b → q k = true)
    (h3 : ∀ k, a + b ≤ k → q k = false) :
    (List.range (a + (b + c))).countP q = b := by
  have e1 : a + (b + c) = a + b + c := by omega
  rw [e1, List.range_add, List.countP_append, List.range_add, List.countP_append,
    List.countP_map, List.countP_map]
  have p1 : (List.range a).countP q = 0 := by
    refine List.countP_eq_zero.mpr ?_
    intro k hk
    rw [h1 k (List.mem_range.mp hk)]
    simp
  have p2 : (List.range b).countP (q ∘ fun x => a + x) = b := by
    have hp : (List.range b).countP (q ∘ fun x => a + x) = (List.range b).length := by
      refine List.countP_eq_length.mpr ?_
      intro k hk
      have hkb := List.mem_range.mp hk
      simp only [Function.comp_apply]
      exact h2 (a + k) (by omega) (by omega)
    rw [hp, List.length_range]
  have p3 : (List.range c).countP (q ∘ fun x => a + b + x) = 0 := by
    refine List.countP_eq_zero.mpr ?_
    intro k hk
    simp only [Function.comp_apply]
    rw [h3 (a + b + k) (by omega)]
    simp
  omega

/-- IDR-typed entry count of the filtered map: the spspps leading slots
keep their non-IDR types, the next clamped-picture-count slots receive
survivors (all IDR-typed), and the zero-filled tail is not IDR-typed. -/
theorem builtMap_idr_count (m : BitstreamMap) (idrT : Nat) (pn mode : Int)
    (hv : ValidMap m idrT) (hc : 0 < m.sample_count_idr)
    (hmode : mode = PICTURE_ORDERED ∨ mode = PICTURE_DISTRIBUTED)
    (h1 : clampedPn2 m pn ≠ 1)
    (hd : mode = PICTURE_DISTRIBUTED →
      clampedPn2 m pn ≤ 0 ∨ ¬ ((clampedPn2 m pn - 1) ∣ (survCount m : Int))) :
    (builtMap m pn mode).sample_type.countP (fun t => t == idrT) =
      (clampedPn2 m pn).toNat := by
  have hNlen : (survivorsOf m).length = survCount m := rfl
  have hA : survCount m ≤ m.sample_count_idr := survCount_le m
  have hpnWle : (clampedPn2 m pn).toNat ≤ survCount m := by
    have h2 := clampedPn2_eq_min m pn hc
    have h3 : clampedPn2 m pn ≤ (survCount m : Int) := by
      rw [h2]
      exact min_le_right _ _
    omega
  rw [builtMap_sample_type, List.countP_map]
  rw [show spsppsOf m + survCount m =
      spsppsOf m + ((clampedPn2 m pn).toNat +
        (survCount m - (clampedPn2 m pn).toNat)) by omega]
  apply countP_range_split
  · intro k hk
    simp only [Function.comp_apply, writeSlot, if_pos hk]
    exact beq_eq_false_iff_ne.mpr (hv.2.2.2.2.2.2.2.1 k hk)
  · intro k hk1 hk2
    simp only [Function.comp_apply, writeSlot, if_neg (by omega : ¬ k < spsppsOf m),
      if_pos hk2]
    rcases hmode with hmo | hmo
    · subst hmo
      simp only [selSample, if_pos rfl, Option.elim_some]
      refine beq_iff_eq.mpr (survivor_type hv (getD_mem_of_lt _ _ _ ?_))
      rw [hNlen]
      omega
    · subst hmo
      have hno : ¬ (PICTURE_DISTRIBUTED = PICTURE_ORDERED) := by decide
      simp only [selSample, if_neg hno, if_pos rfl, Option.elim_some]
      refine beq_iff_eq.mpr (survivor_type hv (getD_mem_of_lt _ _ _ ?_))
      rw [hNlen]
      have hP2 : 2 ≤ clampedPn2 m pn := by omega
      have hdvd : ¬ ((clampedPn2 m pn - 1) ∣ (survCount m : Int)) := by
        rcases hd rfl with h | h
        · omega
        · exact h
      have hxlt : k - spsppsOf m < (clampedPn2 m pn).toNat := by omega
      unfold frameJump
      set d := (clampedPn2 m pn - 1).toNat with hdd
      have hdcast : ((d : Nat) : Int) = clampedPn2 m pn - 1 := by omega
      rw [← hdcast, ← Int.ofNat_tdiv, ← Int.natCast_mul, Int.toNat_ofNat]
      have hxd : k - spsppsOf m ≤ d := by omega
      have hlem : d * (survCount m / d) ≤ survCount m := Nat.mul_div_le _ _
      have hne2 : d * (survCount m / d) ≠ survCount m := by
        intro heq
        apply hdvd
        rw [← hdcast]
        exact Int.natCast_dvd_natCast.mpr ⟨survCount m / d, heq.symm⟩
      have hmul : (k - spsppsOf m) * (survCount m / d) ≤ d * (survCount m / d) :=
        Nat.mul_le_mul_right _ hxd
      omega
  · intro k hk
    simp only [Function.comp_apply, writeSlot,
      if_neg (by omega : ¬ k < spsppsOf m),
      if_neg (by omega : ¬ k < spsppsOf m + (clampedPn2 m pn).toNat)]
    exact beq_eq_false_iff_ne.mpr (fun h => hv.2.2.2.2.2.2.1 h.symm)

/-- C2 as amended: with a filtering mode, at least one IDR sample, a
nonzero filtered entry count, all allocations succeeding, a clamped
picture count min(n, N) different from 1 (at 1 the code divides by zero
computing frame_jump), and, in DISTRIBUTED mode, the clamped count minus
one not dividing the survivor count N (otherwise the last pick reads one
slot past the survivors), idr_filtering returns min(n, N) and the
filtered map it builds holds exactly min(n, N) IDR-typed entries. -/
theorem c2_clamp_amended (m : BitstreamMap) (idrT : Nat) (pn mode : Int)
    (hv : ValidMap m idrT) (hc : 0 < m.sample_count_idr)
    (hmode : mode = PICTURE_ORDERED ∨ mode = PICTURE_DISTRIBUTED)
    (he : spsppsOf m + survCount m ≠ 0)
    (h1 : min pn (survCount m : Int) ≠ 1)
    (hd : mode = PICTURE_DISTRIBUTED →
      min pn (survCount m : Int) ≤ 0 ∨
        ¬ ((min pn (survCount m : Int) - 1) ∣ (survCount m : Int))) :
    (idr_filtering allocAll (some m) pn mode).map FilterResult.retcode =
      some (min pn (survCount m : Int)) ∧
    ((idr_filtering allocAll (some m) pn mode).bind FilterResult.built).map
        (fun mf => mf.sample_type.countP (fun t => t == idrT)) =
      some ((min pn (survCount m : Int)).toNat) := by
  have hmin := clampedPn2_eq_min m pn hc
  rw [idr_filtering_success m pn mode hmode (by omega) he (by rw [hmin]; exact h1)]
  constructor
  · simp [hmin]
  · simp only [Option.some_bind, Option.map_some']
    rw [← hmin]
    exact congrArg some (builtMap_idr_count m idrT pn mode hv hc hmode
      (by rw [hmin]; exact h1) (by rw [hmin]; exact hd))

/-- Concrete instance of c2_clamp_amended: exMap with picture_number 2 in
ORDERED mode returns min(2, 2) = 2 and the filtered map holds 2 entries
of the IDR type 5. -/
theorem c2_clamp_witness :
    (idr_filtering allocAll (some exMap) 2 PICTURE_ORDERED).map FilterResult.retcode =
      some (min 2 (survCount exMap : Int)) ∧
    ((idr_filtering allocAll (some exMap) 2 PICTURE_ORDERED).bind FilterResult.built).map
        (fun mf => mf.sample_type.countP (fun t => t == 5)) =
      some ((min 2 (survCount exMap : Int)).toNat) :=
  c2_clamp_amended exMap 5 2 PICTURE_ORDERED (by unfold ValidMap; decide) (by decide)
    (Or.inl rfl) (by decide) (by decide) (fun h => absurd h (by decide))

/-- NAL unit type codes handled by the dispatcher (h264.c switch). -/
def NALU_TYPE_SLICE : Nat := 1

def NALU_TYPE_IDR : Nat := 5

def NALU_TYPE_SEI : Nat := 6

def NALU_TYPE_SPS : Nat := 7

def NALU_TYPE_PPS : Nat := 8

/-- The mutable state of the h264_decode dispatch loop: the run counters,
the local retcode and the decoderRunning flag. -/
structure DecState where
  idr : Nat
  frame : Nat
  err : Nat
  ret : Int
  running : Bool
deriving DecidableEq

/-- Observable outcome of one loop iteration's collaborators: whether
buffer_feed_next_sample succeeded, whether nalu_parse_header accepted the
header, the parsed nal_unit_type, and whether the type's handler
(decode_slice / decodeSEI / decodeSPS / decodePPS) succeeded. -/
structure IterInput where
  feedOk : Bool
  headerOk : Bool
  naluType : Nat
  handlerOk : Bool
deriving DecidableEq

/-- Body of one h264_decode loop iteration (h264.c, lines 102-195):
feed the next sample into retcode, then on a valid header dispatch on
nal_unit_type, updating retcode and the counters; a bad header or an
unsupported type increments errorCounter.  Type 1 (non-IDR slice) is
only logged. -/
def h264_body (s : DecState) (inp : IterInput) : DecState :=
  let s1 : DecState := { s with ret := if inp.feedOk then SUCCESS else FAILURE }
  if inp.headerOk then
    if inp.naluType = NALU_TYPE_SLICE then s1
    else if inp.naluType = NALU_TYPE_IDR then
      if inp.handlerOk then
        { s1 with ret := SUCCESS, err := 0, idr := s1.idr + 1, frame := s1.frame + 1 }
      else { s1 with err := s1.err + 1 }
    else if inp.naluType = NALU_TYPE_SEI ∨ inp.naluType = NALU_TYPE_SPS ∨
        inp.naluType = NALU_TYPE_PPS then
      if inp.handlerOk then { s1 with ret := SUCCESS }
      else { s1 with err := s1.err + 1 }
    else { s1 with err := s1.err + 1 }
  else { s1 with err := s1.err + 1 }

/-- Termination checks closing each iteration (h264.c, lines 197-211):
stop with SUCCESS when idrCounter reaches picture_number; stop with
FAILURE when errorCounter exceeds 64 or the iteration left a FAILURE
retcode. -/
def h264_check (pn : Int) (s : DecState) : DecState :=
  let s2 := if (s.idr : Int) = pn then { s with ret := SUCCESS, running := false } else s
  if 64 < s2.err ∨ s2.ret = FAILURE then { s2 with ret := FAILURE, running := false }
  else s2

/-- One full iteration of the dispatch loop. -/
def h264_step (pn : Int) (s : DecState) (inp : IterInput) : DecState :=
  h264_check pn (h264_body s inp)

/-- Iteration outcome once the finite input is exhausted: the feed fails
(end of stream) and no valid header can be parsed. -/
def eofInput : IterInput :=
  { feedOk := false, headerOk := false, naluType := 0, handlerOk := false }

/-- The dispatch loop run over a finite input: while decoderRunning,
execute iterations fed by the input list; after the list is exhausted
every further iteration is an eofInput iteration, and a single one
already clears decoderRunning (see c5_loop_termination), so the run is
modelled with one trailing eofInput step. -/
def h264_run (pn : Int) : DecState → List IterInput → DecState
  | s, [] => if s.running then h264_step pn s eofInput else s
  | s, inp :: rest => if s.running then h264_run pn (h264_step pn s inp) rest else s

/-- Number of loop iterations executed by h264_run. -/
def h264_iters (pn : Int) : DecState → List IterInput → Nat
  | s, [] => if s.running then 1 else 0
  | s, inp :: rest => if s.running then 1 + h264_iters pn (h264_step pn s inp) rest else 0

theorem h264_body_running (s : DecState) (inp : IterInput) :
    (h264_body s inp).running = s.running := by
  unfold h264_body
  split_ifs <;> rfl

theorem h264_step_eof_halts (pn : Int) (s : DecState) :
    (h264_step pn s eofInput).running = false := by
  simp only [h264_step, h264_check, h264_body, eofInput]
  split_ifs <;> simp_all [FAILURE, SUCCESS]

theorem h264_run_halts (pn : Int) (s : DecState) (l : List IterInput) :
    (h264_run pn s l).running = false := by
  induction l generalizing s with
  | nil =>
    unfold h264_run
    split_ifs with h
    · exact h264_step_eof_halts pn s
    · simpa using h
  | cons inp rest ih =>
    unfold h264_run
    split_ifs with h
    · exact ih _
    · simpa using h

theorem h264_iters_le (pn : Int) (s : DecState) (l : List IterInput) :
    h264_iters pn s l ≤ l.length + 1 := by
  induction l generalizing s with
  | nil =>
    unfold h264_iters
    split_ifs <;> simp
  | cons inp rest ih =>
    unfold h264_iters
    split_ifs with h
    · have := ih (h264_step pn s inp)
      simp only [List.length_cons]
      omega
    · simp

theorem h264_step_halt_iff (pn : Int) (s : DecState) (inp : IterInput)
    (hr : s.running = true) :
    (h264_step pn s inp).running = false ↔
      ((h264_body s inp).idr : Int) = pn ∨ 64 < (h264_body s inp).err ∨
        (h264_body s inp).ret = FAILURE := by
  have hbr : (h264_body s inp).running = s.running := h264_body_running s inp
  unfold h264_step h264_check
  by_cases h1 : ((h264_body s inp).idr : Int) = pn
  · simp only [if_pos h1]
    split_ifs <;> simp [h1]
  · simp only [if_neg h1]
    by_cases h2 : 64 < (h264_body s inp).err ∨ (h264_body s inp).ret = FAILURE
    · simp [h2]
    · simp only [if_neg h2]
      rw [hbr, hr]
      simp only [Bool.true_eq_false, false_iff]
      intro hcon
      rcases hcon with h | h
      · exact h1 h
      · exact h2 h

/-- C5: the dispatch loop always halts - within input-length-plus-one
iterations on a finite input (once the stream is exhausted the very next
iteration stops) - and an iteration clears decoderRunning exactly when,
at its end, idrCounter equals picture_number, or errorCounter exceeds
64, or the iteration produced a FAILURE (fatal) retcode; no other
condition stops the loop. -/
theorem c5_loop_termination (pn : Int) (s0 s : DecState) (inputs : List IterInput)
    (inp : IterInput) (hr : s.running = true) :
    (h264_run pn s0 inputs).running = false ∧
    h264_iters pn s0 inputs ≤ inputs.length + 1 ∧
    ((h264_step pn s inp).running = false ↔
      ((h264_body s inp).idr : Int) = pn ∨ 64 < (h264_body s inp).err ∨
        (h264_body s inp).ret = FAILURE) ∧
    (h264_step pn s eofInput).running = false :=
  ⟨h264_run_halts pn s0 inputs, h264_iters_le pn s0 inputs,
    h264_step_halt_iff pn s inp hr, h264_step_eof_halts pn s⟩

/-- Concrete instance of c5_loop_termination: a single successful IDR
iteration against picture_number 1. -/
theorem c5_loop_termination_witness :
    (h264_run 1 { idr := 0, frame := 0, err := 0, ret := 1, running := true }
      [{ feedOk := true, headerOk := true, naluType := 5, handlerOk := true }]).running
        = false ∧
    h264_iters 1 { idr := 0, frame := 0, err := 0, ret := 1, running := true }
      [{ feedOk := true, headerOk := true, naluType := 5, handlerOk := true }] ≤
      [({ feedOk := true, headerOk := true, naluType := 5, handlerOk := true } :
        IterInput)].length + 1 ∧
    ((h264_step 1 { idr := 0, frame := 0, err := 0, ret := 1, running := true }
        { feedOk := true, headerOk := true, naluType := 5, handlerOk := true }).running
          = false ↔
      ((h264_body { idr := 0, frame := 0, err := 0, ret := 1, running := true }
        { feedOk := true, headerOk := true, naluType := 5, handlerOk := true }).idr : Int)
          = 1 ∨
      64 < (h264_body { idr := 0, frame := 0, err := 0, ret := 1, running := true }
        { feedOk := true, headerOk := true, naluType := 5, handlerOk := true }).err ∨
      (h264_body { idr := 0, frame := 0, err := 0, ret := 1, running := true }
        { feedOk := true, headerOk := true, naluType := 5, handlerOk := true }).ret
          = FAILURE) ∧
    (h264_step 1 { idr := 0, frame := 0, err := 0, ret := 1, running := true }
      eofInput).running = false :=
  c5_loop_termination 1 { idr := 0, frame := 0, err := 0, ret := 1, running := true }
    { idr := 0, frame := 0, err := 0, ret := 1, running := true }
    [{ feedOk := true, headerOk := true, naluType := 5, handlerOk := true }]
    { feedOk := true, headerOk := true, naluType := 5, handlerOk := true } rfl

/-- A parsed sequence parameter set (only its presence matters here). -/
structure SpsT where
  profile_idc : Nat
deriving DecidableEq

/-- A parsed picture parameter set with its SPS cross-reference. -/
structure PpsT where
  seq_parameter_set_id : Nat
deriving DecidableEq

/-- The active slice header with its PPS cross-reference. -/
structure SliceT where
  pic_parameter_set_id : Nat
deriving DecidableEq

/-- The fields of DecodingContext_t inspected by checkDecodingContext:
nullable sub-structures as Option, the SPS/PPS caches as index-to-slot
functions. -/
structure DecodingContext where
  bitstr : Option Unit
  active_nalu : Option Unit
  active_sps : Nat
  active_pps : Nat
  sps_array : Nat → Option SpsT
  pps_array : Nat → Option PpsT
  active_slice : Option SliceT

/-- Reading pps->seq_parameter_set_id through a possibly-NULL pointer:
none models the dereference of a NULL PPS. -/
def derefSeqId (p : Option PpsT) : Option Nat :=
  match p with
  | none => none
  | some pps => some pps.seq_parameter_set_id

/-- Embedding of checkDecodingContext (h264.c, lines 317-371): retcode
starts at SUCCESS and each failed check overwrites it with FAILURE; the
SPS lookup through the slice's PPS is performed only inside the else
branch guarding against a NULL PPS.  A none result would mean the
function dereferenced a NULL PPS. -/
def checkDecodingContext (dc : DecodingContext) : Option Int :=
  let r1 := if dc.bitstr = none then FAILURE else SUCCESS
  let r2 := if dc.active_nalu = none then FAILURE else r1
  let r3 := if dc.sps_array dc.active_sps = none then FAILURE else r2
  let r4 := if dc.pps_array dc.active_pps = none then FAILURE else r3
  match dc.active_slice with
  | none => some FAILURE
  | some sl =>
    if dc.pps_array sl.pic_parameter_set_id = none then some FAILURE
    else
      match derefSeqId (dc.pps_array sl.pic_parameter_set_id) with
      | none => none
      | some sid => if dc.sps_array sid = none then some FAILURE else some r4

/-- The seven validity conditions of section 4.F: bit reader, active NAL,
active SPS slot, active PPS slot, active slice, the slice's referenced
PPS and that PPS's referenced SPS are all present. -/
def ctxOk (dc : DecodingContext) : Prop :=
  dc.bitstr ≠ none ∧ dc.active_nalu ≠ none ∧
  dc.sps_array dc.active_sps ≠ none ∧ dc.pps_array dc.active_pps ≠ none ∧
  (match dc.active_slice with
   | none => False
   | some sl =>
     match dc.pps_array sl.pic_parameter_set_id with
     | none => False
     | some pps => dc.sps_array pps.seq_parameter_set_id ≠ none)

/-- C6: checkDecodingContext always returns a defined value (it never
dereferences a NULL PPS), SUCCESS exactly when all seven checks of
section 4.F hold and FAILURE otherwise; and a failed IDR slice in the
dispatcher only costs an errorCounter increment - the loop keeps running
when the error budget and picture count permit, aborting the slice but
not the run. -/
theorem c6_check_context (dc : DecodingContext) (pn : Int) (s : DecState)
    (inp : IterInput) (hr : s.running = true) (hf : inp.feedOk = true)
    (hh : inp.headerOk = true) (ht : inp.naluType = NALU_TYPE_IDR)
    (hok : inp.handlerOk = false) (herr : s.err < 64) (hidr : (s.idr : Int) ≠ pn) :
    ((checkDecodingContext dc = some SUCCESS ∧ ctxOk dc) ∨
      (checkDecodingContext dc = some FAILURE ∧ ¬ ctxOk dc)) ∧
    (h264_step pn s inp).running = true ∧
    (h264_step pn s inp).err = s.err + 1 := by
  constructor
  · rcases hsl : dc.active_slice with _ | sl
    · right
      constructor
      · simp [checkDecodingContext, hsl]
      · simp [ctxOk, hsl]
    · rcases hpps : dc.pps_array sl.pic_parameter_set_id with _ | pps
      · right
        constructor
        · simp [checkDecodingContext, hsl, hpps]
        · simp [ctxOk, hsl, hpps]
      · rcases hsps2 : dc.sps_array pps.seq_parameter_set_id with _ | sp2
        · right
          constructor
          · simp [checkDecodingContext, derefSeqId, hsl, hpps, hsps2]
          · simp [ctxOk, hsl, hpps, hsps2]
        · by_cases hb : dc.bitstr = none
          · right
            constructor
            · simp [checkDecodingContext, derefSeqId, hsl, hpps, hsps2, hb]
            · simp [ctxOk, hb]
          · by_cases hn : dc.active_nalu = none
            · right
              constructor
              · simp [checkDecodingContext, derefSeqId, hsl, hpps, hsps2, hb, hn]
              · simp [ctxOk, hn]
            · by_cases hsa : dc.sps_array dc.active_sps = none
              · right
                constructor
                · simp [checkDecodingContext, derefSeqId, hsl, hpps, hsps2, hb, hn, hsa]
                · simp [ctxOk, hsa]
              · by_cases hpa : dc.pps_array dc.active_pps = none
                · right
                  constructor
                  · simp [checkDecodingContext, derefSeqId, hsl, hpps, hsps2, hb, hn,
                      hsa, hpa]
                  · simp [ctxOk, hpa]
                · left
                  constructor
                  · simp [checkDecodingContext, derefSeqId, hsl, hpps, hsps2, hb, hn,
                      hsa, hpa]
                  · simp [ctxOk, hsl, hpps, hsps2, hb, hn, hsa, hpa]
  · have h64 : ¬ (64 < s.err + 1) := by omega
    constructor
    · simp [h264_step, h264_check, h264_body, ht, hh, hf, hok, NALU_TYPE_SLICE,
        NALU_TYPE_IDR, SUCCESS, FAILURE, hidr, hr, h64]
    · simp [h264_step, h264_check, h264_body, ht, hh, hf, hok, NALU_TYPE_SLICE,
        NALU_TYPE_IDR, SUCCESS, FAILURE, hidr, hr, h64]

/-- A decoding context with every checked structure present. -/
def dcEx : DecodingContext :=
  { bitstr := some ()
    active_nalu := some ()
    active_sps := 0
    active_pps := 0
    sps_array := fun _ => some { profile_idc := 66 }
    pps_array := fun _ => some { seq_parameter_set_id := 0 }
    active_slice := some { pic_parameter_set_id := 0 } }

/-- Concrete instance of c6_check_context: the fully populated context
dcEx passes the check, and a failed IDR handler with error budget left
keeps the loop running. -/
theorem c6_check_context_witness :
    ((checkDecodingContext dcEx = some SUCCESS ∧ ctxOk dcEx) ∨
      (checkDecodingContext dcEx = some FAILURE ∧ ¬ ctxOk dcEx)) ∧
    (h264_step 1 { idr := 0, frame := 0, err := 3, ret := 1, running := true }
      { feedOk := true, headerOk := true, naluType := 5, handlerOk := false }).running
        = true ∧
    (h264_step 1 { idr := 0, frame := 0, err := 3, ret := 1, running := true }
      { feedOk := true, headerOk := true, naluType := 5, handlerOk := false }).err
        = 3 + 1 :=
  c6_check_context dcEx 1 { idr := 0, frame := 0, err := 3, ret := 1, running := true }
    { feedOk := true, headerOk := true, naluType := 5, handlerOk := false }
    rfl rfl rfl rfl rfl (by decide) (by decide)

/-- The v4x4 seed matrix of computeNormAdjust (h264.c, lines 452-460). -/
def v4x4 : List (List Int) :=
  [[10, 16, 13], [11, 18, 14], [13, 20, 16], [14, 23, 18], [16, 25, 20], [18, 29, 23]]

/-- The v8x8 seed matrix of computeNormAdjust (h264.c, lines 462-470). -/
def v8x8 : List (List Int) :=
  [[20, 18, 32, 19, 25, 24], [22, 19, 35, 21, 28, 26], [26, 23, 42, 24, 33, 31],
   [28, 25, 45, 26, 35, 33], [32, 28, 51, 30, 40, 38], [36, 32, 58, 34, 46, 43]]

/-- Entry k of seed row q of v4x4. -/
def v4 (q k : Nat) : Int := (v4x4.getD q []).getD k 0

/-- Entry k of seed row q of v8x8. -/
def v8 (q k : Nat) : Int := (v8x8.getD q []).getD k 0

/-- Entry (q, i, j) of the normAdjust4x4 table after computeNormAdjust
(h264.c, lines 475-488): the loops fill each entry exactly once with the
value of this if-chain. -/
def normAdjust4x4 (q i j : Nat) : Int :=
  if i % 2 = 0 ∧ j % 2 = 0 then v4 q 0
  else if i % 2 = 1 ∧ j % 2 = 1 then v4 q 1
  else v4 q 2

/-- Entry (q, i, j) of the normAdjust8x8 table after computeNormAdjust
(h264.c, lines 491-510). -/
def normAdjust8x8 (q i j : Nat) : Int :=
  if i % 4 = 0 ∧ j % 4 = 0 then v8 q 0
  else if i % 2 = 1 ∧ j % 2 = 1 then v8 q 1
  else if i % 4 = 2 ∧ j % 4 = 2 then v8 q 2
  else if (i % 4 = 0 ∧ j % 2 = 1) ∨ (i % 2 = 1 ∧ j % 4 = 0) then v8 q 3
  else if (i % 4 = 0 ∧ j % 4 = 2) ∨ (i % 4 = 2 ∧ j % 4 = 0) then v8 q 4
  else v8 q 5

/-- C7: after computeNormAdjust, every normAdjust4x4 entry follows the
both-even / both-odd / mixed rule over the v4x4 seed row and every
normAdjust8x8 entry follows the five prioritised residue rules over the
v8x8 seed row; consequently every table entry belongs to its seed row. -/
theorem c7_norm_adjust :
    (∀ (q : Fin 6) (i j : Fin 4),
      (normAdjust4x4 q i j =
        if Even i.val ∧ Even j.val then v4 q 0
        else if Odd i.val ∧ Odd j.val then v4 q 1
        else v4 q 2) ∧
      normAdjust4x4 q i j ∈ v4x4.getD q []) ∧
    (∀ (q : Fin 6) (i j : Fin 8),
      (normAdjust8x8 q i j =
        if i.val % 4 = 0 ∧ j.val % 4 = 0 then v8 q 0
        else if i.val % 2 = 1 ∧ j.val % 2 = 1 then v8 q 1
        else if i.val % 4 = 2 ∧ j.val % 4 = 2 then v8 q 2
        else if (i.val % 4 = 0 ∧ j.val % 2 = 1) ∨ (i.val % 2 = 1 ∧ j.val % 4 = 0) then
          v8 q 3
        else if (i.val % 4 = 0 ∧ j.val % 4 = 2) ∨ (i.val % 4 = 2 ∧ j.val % 4 = 0) then
          v8 q 4
        else v8 q 5) ∧
      normAdjust8x8 q i j ∈ v8x8.getD q []) := by
  decide

/-- The divisor loop of is_prime (utils.c, lines 165-172): starting at
i = 2 and advancing by i += 2, return 0 at the first candidate with
n % i == 0 and i != n, stop as soon as i no longer satisfies i < sqrt(n)
(for integers i and n ≤ 9999 the IEEE comparison i < sqrt(n) is exactly
i * i < n).  The fuel argument only bounds the recursion; 101 steps cover
every n ≤ 9999 since the loop stops once i reaches 100 (100 * 100 >
9999). -/
def is_prime_loop : Nat → Nat → Nat → Nat
  | 0, _, _ => 1
  | fuel + 1, n, i =>
    if i * i < n then
      if n % i = 0 ∧ i ≠ n then 0 else is_prime_loop fuel n (i + 2)
    else 1

/-- Embedding of is_prime (utils.c, lines 157-175): inputs above 9999
are rejected with 0; otherwise the even-stepping divisor loop runs. -/
def is_prime (n : Nat) : Nat :=
  if 9999 < n then 0 else is_prime_loop 101 n 2

/-- C9: the divisor loop starts at 2 and advances by 2, so it tests only
even candidates against sqrt(n); consequently the composite 9 - below
10000 and with only odd proper divisors - is reported prime. -/
theorem c9_is_prime_even_only :
    is_prime 9 = 1 ∧ ¬ Nat.Prime 9 ∧ 9 < 10000 ∧
    (∀ d, d < 9 → d ∣ 9 → Odd d) := by
  refine ⟨rfl, by decide, by decide, by decide⟩

/-- Concrete instance of c9_is_prime_even_only: the proper divisor 3 of
the misclassified composite 9 is odd. -/
theorem c9_is_prime_witness : is_prime 9 = 1 ∧ Odd 3 :=
  ⟨c9_is_prime_even_only.1, c9_is_prime_even_only.2.2.2 3 (by decide) (by decide)⟩

end MiniVideo
